import Mathlib

/-!
Shallow embedding of the PBLCampusCart support-ticket controller
(src/backend/controllers/supportController.js) and its router
(src/backend/routes/support.js).

The persistent store (MySQL tables) is modelled as lists of rows; the AI
classifier and the tie-break behaviour of the SQL query
ORDER BY active_tickets ASC LIMIT 1 (which fixes no secondary sort key)
are modelled as an environment record. JavaScript truthiness of numeric
ids and strings is modelled explicitly (0, null/undefined and the empty
string are falsy). Timestamps are naturals; CURRENT_TIMESTAMP within one
request is the single clock value Store.now.
-/

namespace CampusCart

/-- Structured verdict returned by aiService.generateResponse. -/
structure AIResponse where
  message : String
  confidence : Nat
  intent : String
  needsHuman : Bool
deriving Repr, DecidableEq

/-- Row of the users table (fields used by the controller). -/
structure User where
  user_id : Nat
  user_type : String
  is_active : Bool
deriving Repr, DecidableEq

/-- Row of the support_tickets table. -/
structure Ticket where
  ticket_id : Nat
  user_id : Nat
  order_id : Option Nat
  restaurant_id : Option Nat
  ticket_type : String
  subject : String
  description : String
  priority : String
  status : String
  assigned_to : Option Nat
  created_at : Nat
  updated_at : Nat
deriving Repr, DecidableEq

/-- Row of the chat_messages table. -/
structure ChatMessage where
  message_id : Nat
  ticket_id : Nat
  sender_id : Option Nat
  sender_type : String
  message_text : String
  is_internal_note : Bool
  is_ai_generated : Bool
  ai_confidence_score : Option Nat
  created_at : Nat
deriving Repr, DecidableEq

/-- Row of the ai_bot_logs table. -/
structure AIBotLog where
  ticket_id : Nat
  user_query : String
  ai_response : String
  intent_detected : String
  confidence_score : Nat
  escalated_to_human : Bool
deriving Repr, DecidableEq

/-- Row of the ticket_escalations table. -/
structure TicketEscalation where
  ticket_id : Nat
  escalated_from : Option Nat
  escalated_to : Nat
  escalation_reason : String
  escalation_level : String
deriving Repr, DecidableEq

/-- Row of the restaurant_complaints table (fields written by createTicket). -/
structure RestaurantComplaint where
  ticket_id : Nat
  restaurant_id : Nat
  complaint_type : String
  complaint_summary : Option String
deriving Repr, DecidableEq

/-- Row of the orders table (field read by the inference SELECT). -/
structure OrderRow where
  order_id : Nat
  restaurant_id : Option Nat
deriving Repr, DecidableEq

/-- The persistent store reachable through pool.execute, plus the
auto-increment counters and the request clock. -/
structure Store where
  users : List User
  support_tickets : List Ticket
  chat_messages : List ChatMessage
  ai_bot_logs : List AIBotLog
  ticket_escalations : List TicketEscalation
  restaurant_complaints : List RestaurantComplaint
  orders : List OrderRow
  nextTicketId : Nat
  nextMessageId : Nat
  now : Nat
deriving Repr

/-- JavaScript truthiness of a nullable numeric column / body field:
null, undefined and 0 are falsy. -/
def truthyNat : Option Nat → Bool
  | none => false
  | some n => n != 0

/-- JavaScript expression (x || null) on a nullable numeric field. -/
def orNull (o : Option Nat) : Option Nat :=
  if truthyNat o then o else none

/-- JavaScript truthiness of an optional query-string parameter. -/
def truthyStr : Option String → Bool
  | none => false
  | some q => q != ""

/-- INSERT INTO chat_messages: appends one row, drawing the id from the
auto-increment counter and the timestamp from the request clock. -/
def appendMessage (s : Store) (tid : Nat) (sender : Option Nat)
    (stype : String) (text : String) (internal : Bool) (aiGen : Bool)
    (conf : Option Nat) : Store :=
  { s with
    chat_messages := s.chat_messages ++
      [⟨s.nextMessageId, tid, sender, stype, text, internal, aiGen, conf, s.now⟩],
    nextMessageId := s.nextMessageId + 1 }

/-- UPDATE support_tickets ... WHERE ticket_id = tid: applies f to every
row whose id matches. -/
def updateTicket (l : List Ticket) (tid : Nat) (f : Ticket → Ticket) : List Ticket :=
  l.map fun t => if t.ticket_id = tid then f t else t

/-- SELECT ... WHERE ticket_id = ? LIMIT-1-style row fetch (first match). -/
def findTicket (s : Store) (tid : Nat) : Option Ticket :=
  s.support_tickets.find? fun t => t.ticket_id == tid

/-- WHERE u.user_type is "support_agent" AND u.is_active is TRUE. -/
def isActiveAgent (u : User) : Bool :=
  u.user_type == "support_agent" && u.is_active

/-- The ids of all active support agents, in users-table order. -/
def activeAgents (s : Store) : List Nat :=
  (s.users.filter isActiveAgent).map User.user_id

/-- The LEFT JOIN condition of the escalation query: the ticket counts
toward the load of agent a when it is assigned to a and its status is
assigned or in_progress. -/
def countsTowardLoad (t : Ticket) (a : Nat) : Bool :=
  t.assigned_to == some a && (t.status == "assigned" || t.status == "in_progress")

/-- COUNT(st.ticket_id) AS active_tickets for one agent. -/
def active_tickets (s : Store) (a : Nat) : Nat :=
  (s.support_tickets.filter (countsTowardLoad · a)).length

/-- a is an active agent whose current open load is minimal among all
active agents: exactly the agents that ORDER BY
active_tickets ASC LIMIT 1 of the escalation query may return. -/
def IsLeastLoadedAgent (s : Store) (a : Nat) : Prop :=
  a ∈ activeAgents s ∧ ∀ b ∈ activeAgents s, active_tickets s a ≤ active_tickets s b

instance (s : Store) (a : Nat) : Decidable (IsLeastLoadedAgent s a) := by
  unfold IsLeastLoadedAgent; infer_instance

/-- Environment: the external classifier, the agent the unkeyed SQL
tie-break actually returns, and the failure oracles of the two
best-effort projection steps. -/
structure Env where
  generateResponse : String → String → AIResponse
  chooseAgent : Store → Nat
  orderLookupFails : Bool
  complaintInsertFails : Bool

/-- The contract the escalation SELECT guarantees about chooseAgent: the
row returned by ORDER BY active_tickets ASC LIMIT 1 is some active agent
of minimal load (which one among ties is not specified by the query). -/
def Env.SoundAgentChoice (env : Env) : Prop :=
  ∀ s : Store, activeAgents s ≠ [] → IsLeastLoadedAgent s (env.chooseAgent s)

/-- The fixed hand-off notice inserted by escalateToHuman. -/
def agentJoinedText : String :=
  "A support agent has joined the conversation and will assist you shortly."

/-- supportController.escalateToHuman(ticketId, reason): if no active
agent exists, nothing is written; otherwise the least-loaded agent
returned by the query is assigned, the ticket status becomes assigned,
a system notice is appended and an escalation record is inserted. -/
def escalateToHuman (env : Env) (s : Store) (ticketId : Nat) (reason : String) : Store :=
  if activeAgents s = [] then s
  else
    let agentId := env.chooseAgent s
    let assign : Ticket → Ticket := fun t =>
      { t with assigned_to := some agentId, status := "assigned", updated_at := s.now }
    let s1 := { s with support_tickets := updateTicket s.support_tickets ticketId assign }
    let s2 := appendMessage s1 ticketId none "ai_bot" agentJoinedText false true none
    { s2 with ticket_escalations := s2.ticket_escalations ++
        [⟨ticketId, none, agentId, reason, "agent"⟩] }

/-- Request body of POST /tickets; the empty string models an absent or
empty text field, none an absent numeric field. -/
structure CreateTicketBody where
  order_id : Option Nat
  restaurant_id : Option Nat
  ticket_type : String
  subject : String
  description : String
  priority : String
deriving Repr, DecidableEq

/-- JSON payloads createTicket can answer with. -/
inductive CreateResp
  | badRequest (error : String)
  | created (message : String) (ticket_id : Nat) (ai_response : String)
      (escalated : Bool) (status : String)
deriving Repr, DecidableEq

/-- complaint_summary value: subject || description || null. -/
def complaintSummary (subject description : String) : Option String :=
  if subject ≠ "" then some subject
  else if description ≠ "" then some description
  else none

/-- The restaurant id the complaint block settles on: the explicit
restaurant_id if truthy, else (when an order id is supplied) the restaurant_id of the order
row if the lookup succeeds and finds a row; an inner
lookup failure is swallowed and leaves the initial falsy value. -/
def inferEffectiveRestaurantId (env : Env) (s : Store)
    (restaurant_id order_id : Option Nat) : Option Nat :=
  if truthyNat restaurant_id then restaurant_id
  else if truthyNat order_id then
    if env.orderLookupFails then restaurant_id
    else
      match s.orders.find? (fun o => o.order_id == order_id.getD 0) with
      | some o => o.restaurant_id
      | none => restaurant_id
  else restaurant_id

/-- The best-effort restaurant_complaints block of createTicket: inserts
one row when a truthy restaurant id was resolved and the insert does not
fail; any failure is swallowed. -/
def projectComplaint (env : Env) (s : Store) (ticketId : Nat)
    (b : CreateTicketBody) : Store :=
  let effectiveRestaurantId := inferEffectiveRestaurantId env s b.restaurant_id b.order_id
  if truthyNat effectiveRestaurantId && !env.complaintInsertFails then
    { s with restaurant_complaints := s.restaurant_complaints ++
        [⟨ticketId, effectiveRestaurantId.getD 0, b.ticket_type,
          complaintSummary b.subject b.description⟩] }
  else s

/-- The ticket row inserted by createTicket: status defaults to open,
no agent is assigned, priority is the supplied value OR "medium". -/
def newTicket (s : Store) (userId : Nat) (b : CreateTicketBody) : Ticket :=
  ⟨s.nextTicketId, userId, orNull b.order_id, orNull b.restaurant_id, b.ticket_type,
   b.subject, b.description, if b.priority = "" then "medium" else b.priority,
   "open", none, s.now, s.now⟩

/-- Steps 1 to 4 of the createTicket workflow: insert the ticket row,
append the opening customer message, append the AI message, insert the
classifier log entry. -/
def createTicketBase (env : Env) (s : Store) (userId : Nat) (b : CreateTicketBody) : Store :=
  let ticketId := s.nextTicketId
  let s1 := { s with support_tickets := s.support_tickets ++ [newTicket s userId b],
                     nextTicketId := ticketId + 1 }
  let s2 := appendMessage s1 ticketId (some userId) "customer" b.description false false none
  let aiResponse := env.generateResponse b.description b.ticket_type
  let s3 := appendMessage s2 ticketId none "ai_bot" aiResponse.message false true
    (some aiResponse.confidence)
  { s3 with ai_bot_logs := s3.ai_bot_logs ++
      [⟨ticketId, b.description, aiResponse.message, aiResponse.intent,
        aiResponse.confidence, aiResponse.needsHuman⟩] }

/-- supportController.createTicket. -/
def createTicket (env : Env) (s : Store) (userId : Nat) (b : CreateTicketBody) :
    CreateResp × Store :=
  if b.ticket_type = "" ∨ b.subject = "" ∨ b.description = "" then
    (CreateResp.badRequest "Missing required fields", s)
  else
    let ticketId := s.nextTicketId
    let aiResponse := env.generateResponse b.description b.ticket_type
    let s4 := createTicketBase env s userId b
    let s5 :=
      if aiResponse.needsHuman || b.priority == "urgent" then
        escalateToHuman env s4 ticketId
          ("Auto-escalation: " ++
            if aiResponse.needsHuman then "AI confidence low" else "Urgent priority")
      else s4
    let s6 := projectComplaint env s5 ticketId b
    (CreateResp.created "Support ticket created successfully" ticketId
      aiResponse.message aiResponse.needsHuman "open", s6)

/-- senderTypeMap of sendMessage, with the JavaScript fallback
(map lookup OR "customer"). -/
def senderTypeMap (userType : String) : String :=
  if userType = "student" then "customer"
  else if userType = "support_agent" then "support_agent"
  else if userType = "senior_support" then "senior_support"
  else if userType = "admin" then "senior_support"
  else "customer"

/-- The UPDATE sendMessage runs on the ticket row: updated_at is always
refreshed; the status CASE advances open to in_progress exactly for the
support_agent and senior_support user types. -/
def transitionOnAgentReply (userType : String) (now : Nat) (t : Ticket) : Ticket :=
  { t with
    updated_at := now,
    status :=
      if t.status = "open" ∧ (userType = "support_agent" ∨ userType = "senior_support")
      then "in_progress" else t.status }

/-- Characters JavaScript String.prototype.trim removes at either end. -/
def trimChars (l : List Char) : List Char :=
  ((l.dropWhile Char.isWhitespace).reverse.dropWhile Char.isWhitespace).reverse

/-- message_text.trim() of the validation check, modelled structurally
over the character list of the string. -/
def jsTrim (s : String) : String := ⟨trimChars s.data⟩

/-- Request body of POST /tickets/:ticket_id/messages
(is_internal_note || false already applied). -/
structure SendMessageBody where
  message_text : String
  is_internal_note : Bool
deriving Repr, DecidableEq

/-- JSON payloads sendMessage can answer with. -/
inductive MsgResp
  | badRequest (error : String)
  | created (message : String) (message_id : Nat)
deriving Repr, DecidableEq

/-- The two classifier-artifact inserts of the follow-up block: the AI
reply message and the classifier log entry. -/
def recordAIReply (env : Env) (s2 : Store) (ticket_id : Nat) (text tt : String) : Store :=
  let aiResponse := env.generateResponse text tt
  let s4 := appendMessage s2 ticket_id none "ai_bot" aiResponse.message
    false true (some aiResponse.confidence)
  { s4 with ai_bot_logs := s4.ai_bot_logs ++
    [⟨ticket_id, text, aiResponse.message, aiResponse.intent,
      aiResponse.confidence, aiResponse.needsHuman⟩] }

/-- The block sendMessage runs only for user type student: re-fetch the
ticket; when it exists and has no truthy assigned agent, invoke the
classifier, append its reply, log it, and escalate when the verdict
recommends a human. -/
def classifierFollowUp (env : Env) (s2 : Store) (ticket_id : Nat) (text : String) : Store :=
  match findTicket s2 ticket_id with
  | some t =>
    if truthyNat t.assigned_to then s2
    else
      let s5 := recordAIReply env s2 ticket_id text t.ticket_type
      if (env.generateResponse text t.ticket_type).needsHuman then
        escalateToHuman env s5 ticket_id "AI escalation recommended"
      else s5
  | none => s2

/-- supportController.sendMessage. -/
def sendMessage (env : Env) (s : Store) (userId : Nat) (userType : String)
    (ticket_id : Nat) (b : SendMessageBody) : MsgResp × Store :=
  if jsTrim b.message_text = "" then
    (MsgResp.badRequest "Message text is required", s)
  else
    let senderType := senderTypeMap userType
    let messageId := s.nextMessageId
    let s1 := appendMessage s ticket_id (some userId) senderType b.message_text
      b.is_internal_note false none
    let updated := updateTicket s1.support_tickets ticket_id (transitionOnAgentReply userType s1.now)
    let s2 := { s1 with support_tickets := updated }
    let s3 :=
      if userType = "student" then classifierFollowUp env s2 ticket_id b.message_text
      else s2
    (MsgResp.created "Message sent successfully" messageId, s3)

/-- The visibility filter of the message SELECT:
is_internal_note = FALSE OR viewer role IN (support_agent, senior_support, admin). -/
def visibleToRole (userType : String) (m : ChatMessage) : Bool :=
  !m.is_internal_note ||
    (userType == "support_agent" || userType == "senior_support" || userType == "admin")

/-- ORDER BY created_at ASC as a total preorder on message rows. -/
def msgBefore (a b : ChatMessage) : Prop := a.created_at ≤ b.created_at

instance : DecidableRel msgBefore := fun a b =>
  inferInstanceAs (Decidable (a.created_at ≤ b.created_at))

instance : IsTotal ChatMessage msgBefore := ⟨fun a b => Nat.le_total a.created_at b.created_at⟩

instance : IsTrans ChatMessage msgBefore := ⟨fun _ _ _ h1 h2 => Nat.le_trans h1 h2⟩

/-- ORDER BY created_at ASC. -/
def sortByCreatedAt (l : List ChatMessage) : List ChatMessage :=
  List.insertionSort msgBefore l

/-- JSON payloads getTicketMessages can answer with (the display-only
joined columns sender_name / sender_role are not part of the model). -/
inductive ListResp
  | forbidden (error : String)
  | ok (messages : List ChatMessage)
deriving Repr, DecidableEq

/-- supportController.getTicketMessages. -/
def getTicketMessages (s : Store) (userId : Nat) (userType : String)
    (ticket_id : Nat) : ListResp :=
  if userType = "student" ∧
      ¬ (s.support_tickets.any fun t => t.ticket_id == ticket_id && t.user_id == userId)
  then ListResp.forbidden "Access denied"
  else ListResp.ok (sortByCreatedAt
    (s.chat_messages.filter fun m => m.ticket_id == ticket_id && visibleToRole userType m))

/-- JSON payloads debugTicket can answer with. -/
inductive DebugResp
  | notFound (error : String)
  | ok (ticket : Ticket) (messages : List ChatMessage)
      (restaurant_complaints : List RestaurantComplaint)
deriving Repr, DecidableEq

/-- supportController.debugTicket: returns the ticket, its full message
history (no visibility filter) and its complaint rows. -/
def debugTicket (s : Store) (ticket_id : Nat) : DebugResp :=
  match findTicket s ticket_id with
  | none => DebugResp.notFound "Ticket not found"
  | some t => DebugResp.ok t
      (sortByCreatedAt (s.chat_messages.filter fun m => m.ticket_id == ticket_id))
      (s.restaurant_complaints.filter fun c => c.ticket_id == ticket_id)

/-- Modelled from the spec: the enumerated type of the priority column is
ordered low < medium < high < urgent (the SQL schema declaring the ENUM
is not under src/); values outside the enumeration sort below low. -/
def priorityRank : String → Nat
  | "low" => 1
  | "medium" => 2
  | "high" => 3
  | "urgent" => 4
  | _ => 0

/-- ORDER BY st.priority DESC, st.created_at ASC as a total preorder on
ticket rows. -/
def ticketBefore (a b : Ticket) : Prop :=
  priorityRank b.priority < priorityRank a.priority ∨
    (priorityRank a.priority = priorityRank b.priority ∧ a.created_at ≤ b.created_at)

instance : DecidableRel ticketBefore := fun a b =>
  inferInstanceAs (Decidable (priorityRank b.priority < priorityRank a.priority ∨
    (priorityRank a.priority = priorityRank b.priority ∧ a.created_at ≤ b.created_at)))

instance : IsTotal Ticket ticketBefore := by
  refine ⟨fun a b => ?_⟩
  unfold ticketBefore
  omega

instance : IsTrans Ticket ticketBefore := by
  refine ⟨fun a b c h1 h2 => ?_⟩
  unfold ticketBefore at *
  omega

/-- supportController.getAllTickets: WHERE clause (inner join to users,
status exclusion, plain-agent scoping, optional query filters) followed
by the ORDER BY. -/
def getAllTickets (s : Store) (agentId : Nat) (userType : String)
    (status priority : Option String) : List Ticket :=
  let base := s.support_tickets.filter fun t =>
    (s.users.any fun u => u.user_id == t.user_id) &&
    (t.status != "resolved" && t.status != "closed") &&
    (userType != "support_agent" || (t.assigned_to == none || t.assigned_to == some agentId)) &&
    (!truthyStr status || some t.status == status) &&
    (!truthyStr priority || some t.priority == priority)
  List.insertionSort ticketBefore base

/-- Roles the requireRole middleware of the router demands per route
(src/backend/routes/support.js); none means only authenticateToken
guards the route, with no role restriction. -/
def createTicketRouteRoles : Option (List String) := some ["student"]

def getUserTicketsRouteRoles : Option (List String) := some ["student"]

def getTicketMessagesRouteRoles : Option (List String) := none

def sendMessageRouteRoles : Option (List String) := none

def getAllTicketsRouteRoles : Option (List String) :=
  some ["support_agent", "senior_support", "admin"]

def getRestaurantComplaintsRouteRoles : Option (List String) := some ["vendor"]

def debugTicketRouteRoles : Option (List String) := none

/-! ### Concrete realisations of the unkeyed SQL tie-break -/

/-- A choice consistent with the escalation query that, among equally
loaded active agents, returns the one appearing first in the users
table. -/
def chooseFirstAgent (s : Store) : Nat :=
  ((activeAgents s).argmin (active_tickets s)).getD 0

/-- A choice consistent with the escalation query that, among equally
loaded active agents, returns the one appearing last in the users
table. -/
def chooseLastAgent (s : Store) : Nat :=
  ((activeAgents s).reverse.argmin (active_tickets s)).getD 0

/-! ### Concrete sample data for witnesses and counterexamples -/

def agent1 : User := ⟨1, "support_agent", true⟩

def agent2 : User := ⟨2, "support_agent", true⟩

def student7 : User := ⟨7, "student", true⟩

def aiCalm : AIResponse := ⟨"Here is some help.", 90, "faq", false⟩

def aiHelp : AIResponse := ⟨"Let me connect you to an agent.", 30, "handoff", true⟩

def envCalm : Env := ⟨fun _ _ => aiCalm, chooseFirstAgent, false, false⟩

def envHelp : Env := ⟨fun _ _ => aiHelp, chooseFirstAgent, false, false⟩

def envCalmLast : Env := ⟨fun _ _ => aiCalm, chooseLastAgent, false, false⟩

def sOneAgent : Store := ⟨[agent1], [], [], [], [], [], [], 1, 1, 100⟩

def sNoAgent : Store := ⟨[student7], [], [], [], [], [], [], 1, 1, 100⟩

def openTicket1 : Ticket :=
  ⟨1, 7, none, none, "payment", "Refund", "Please refund", "medium", "open", none, 50, 50⟩

def sTwoAgents : Store := ⟨[agent1, agent2], [openTicket1], [], [], [], [], [], 2, 1, 100⟩

def pubMsg : ChatMessage := ⟨1, 1, some 7, "customer", "Please refund", false, false, none, 60⟩

def internalNote : ChatMessage :=
  ⟨2, 1, some 1, "support_agent", "internal observation", true, false, none, 61⟩

def sLeak : Store := ⟨[agent1, student7], [openTicket1], [pubMsg, internalNote], [], [], [], [], 2, 3, 100⟩

def bodyUrgent : CreateTicketBody :=
  ⟨none, none, "payment", "Double charge", "I was charged twice", "urgent"⟩

def bodyBanana : CreateTicketBody :=
  ⟨none, none, "other", "Odd priority", "Testing priority", "banana"⟩

def bodyRestaurant : CreateTicketBody :=
  ⟨none, some 5, "food_quality", "Cold food", "The food arrived cold", ""⟩

def bodyOrder : CreateTicketBody :=
  ⟨some 9, none, "order_issue", "Late order", "My order is late", ""⟩

def order9 : OrderRow := ⟨9, some 5⟩

def sWithOrder : Store := ⟨[agent1], [], [], [], [], [], [order9], 1, 1, 100⟩

def replyBody : SendMessageBody := ⟨"Any update on this?", false⟩

def qTicketA : Ticket := ⟨1, 7, none, none, "payment", "A", "a", "low", "open", none, 10, 10⟩

def qTicketB : Ticket := ⟨2, 7, none, none, "payment", "B", "b", "urgent", "open", none, 20, 20⟩

def qTicketC : Ticket := ⟨3, 7, none, none, "payment", "C", "c", "urgent", "resolved", none, 5, 5⟩

def qTicketD : Ticket :=
  ⟨4, 7, none, none, "payment", "D", "d", "medium", "assigned", some 2, 8, 8⟩

def sQueue : Store :=
  ⟨[agent1, agent2, student7], [qTicketA, qTicketB, qTicketC, qTicketD], [], [], [], [], [], 5, 1, 100⟩

/-! ### Observation counts -/

/-- Number of classifier-reply messages recorded on a ticket: ai_bot
messages carrying a confidence score (the hand-off notice carries none). -/
def aiReplyCount (s : Store) (tid : Nat) : Nat :=
  (s.chat_messages.filter fun m =>
    m.ticket_id == tid && (m.sender_type == "ai_bot" && m.ai_confidence_score.isSome)).length

/-- Number of escalation records of a ticket. -/
def escalationRecordCount (s : Store) (tid : Nat) : Nat :=
  (s.ticket_escalations.filter fun e => e.ticket_id == tid).length

/-! ### Helper lemmas -/

lemma argmin_getD_least (l : List Nat) (f : Nat → Nat) (h : l ≠ []) :
    (l.argmin f).getD 0 ∈ l ∧ ∀ b ∈ l, f ((l.argmin f).getD 0) ≤ f b := by
  obtain ⟨m, hm⟩ : ∃ m, l.argmin f = some m := by
    cases hargm : l.argmin f with
    | none => exact absurd (List.argmin_eq_none.mp hargm) h
    | some m => exact ⟨m, rfl⟩
  rw [hm]
  exact ⟨List.argmin_mem hm, fun b hb => List.le_of_mem_argmin hb hm⟩

lemma chooseFirstAgent_least (s : Store) (h : activeAgents s ≠ []) :
    IsLeastLoadedAgent s (chooseFirstAgent s) :=
  argmin_getD_least (activeAgents s) (active_tickets s) h

lemma chooseLastAgent_least (s : Store) (h : activeAgents s ≠ []) :
    IsLeastLoadedAgent s (chooseLastAgent s) := by
  have h' : (activeAgents s).reverse ≠ [] := by
    simpa using h
  have := argmin_getD_least (activeAgents s).reverse (active_tickets s) h'
  exact ⟨by simpa using this.1, fun b hb => this.2 b (by simpa using hb)⟩

lemma find?_updateTicket (l : List Ticket) (tid : Nat) (f : Ticket → Ticket)
    (hf : ∀ t, (f t).ticket_id = t.ticket_id) :
    (updateTicket l tid f).find? (fun t => t.ticket_id == tid) =
      ((l.find? fun t => t.ticket_id == tid).map f) := by
  induction l with
  | nil => rfl
  | cons t l ih =>
    by_cases h : t.ticket_id = tid
    · simp [updateTicket, List.find?_cons, hf, h]
    · simp only [updateTicket, List.map_cons, if_neg h, List.find?_cons] at *
      have hne : (t.ticket_id == tid) = false := by simp [h]
      simp [hne, ih]

lemma find?_append_fresh (l : List Ticket) (t : Ticket) (tid : Nat)
    (hfresh : ∀ u ∈ l, u.ticket_id ≠ tid) (ht : t.ticket_id = tid) :
    ((l ++ [t]).find? fun u => u.ticket_id == tid) = some t := by
  rw [List.find?_append]
  have h1 : (l.find? fun u => u.ticket_id == tid) = none := by
    rw [List.find?_eq_none]
    intro u hu
    simp [hfresh u hu]
  simp [h1, List.find?_cons, ht]

/-- Store fields untouched by createTicketBase. -/
lemma createTicketBase_fields (env : Env) (s : Store) (userId : Nat) (b : CreateTicketBody) :
    (createTicketBase env s userId b).users = s.users ∧
    (createTicketBase env s userId b).orders = s.orders ∧
    (createTicketBase env s userId b).ticket_escalations = s.ticket_escalations ∧
    (createTicketBase env s userId b).restaurant_complaints = s.restaurant_complaints ∧
    (createTicketBase env s userId b).now = s.now ∧
    (createTicketBase env s userId b).support_tickets =
      s.support_tickets ++ [newTicket s userId b] := by
  simp [createTicketBase, appendMessage]

lemma activeAgents_users_eq {s s' : Store} (h : s'.users = s.users) :
    activeAgents s' = activeAgents s := by
  simp [activeAgents, h]

lemma active_tickets_tickets_eq {s s' : Store} (h : s'.support_tickets = s.support_tickets) :
    active_tickets s' = active_tickets s := by
  funext a
  simp [active_tickets, h]

lemma escalateToHuman_noop (env : Env) (s : Store) (tid : Nat) (reason : String)
    (h : activeAgents s = []) : escalateToHuman env s tid reason = s := by
  simp [escalateToHuman, h]

lemma escalateToHuman_fields (env : Env) (s : Store) (tid : Nat) (reason : String)
    (h : activeAgents s ≠ []) :
    (escalateToHuman env s tid reason).users = s.users ∧
    (escalateToHuman env s tid reason).orders = s.orders ∧
    (escalateToHuman env s tid reason).ai_bot_logs = s.ai_bot_logs ∧
    (escalateToHuman env s tid reason).restaurant_complaints = s.restaurant_complaints ∧
    (escalateToHuman env s tid reason).now = s.now ∧
    (escalateToHuman env s tid reason).support_tickets =
      updateTicket s.support_tickets tid (fun t =>
        { t with assigned_to := some (env.chooseAgent s), status := "assigned",
                 updated_at := s.now }) ∧
    (escalateToHuman env s tid reason).chat_messages =
      s.chat_messages ++
        [⟨s.nextMessageId, tid, none, "ai_bot", agentJoinedText, false, true, none, s.now⟩] ∧
    (escalateToHuman env s tid reason).ticket_escalations =
      s.ticket_escalations ++ [⟨tid, none, env.chooseAgent s, reason, "agent"⟩] := by
  simp [escalateToHuman, h, appendMessage]

lemma escalateToHuman_complaints (env : Env) (s : Store) (tid : Nat) (reason : String) :
    (escalateToHuman env s tid reason).restaurant_complaints = s.restaurant_complaints := by
  by_cases h : activeAgents s = []
  · rw [escalateToHuman_noop env s tid reason h]
  · exact (escalateToHuman_fields env s tid reason h).2.2.2.1

lemma escalateToHuman_tickets_chat_suffix (env : Env) (s : Store) (tid : Nat) (reason : String) :
    (∃ l, (escalateToHuman env s tid reason).chat_messages = s.chat_messages ++ l) ∧
    (escalateToHuman env s tid reason).now = s.now ∧
    (escalateToHuman env s tid reason).users = s.users := by
  by_cases h : activeAgents s = []
  · rw [escalateToHuman_noop env s tid reason h]
    exact ⟨⟨[], by simp⟩, rfl, rfl⟩
  · obtain ⟨hu, _, _, _, hn, _, hc, _⟩ := escalateToHuman_fields env s tid reason h
    exact ⟨⟨_, hc⟩, hn, hu⟩

lemma projectComplaint_fields (env : Env) (s : Store) (tid : Nat) (b : CreateTicketBody) :
    (projectComplaint env s tid b).users = s.users ∧
    (projectComplaint env s tid b).support_tickets = s.support_tickets ∧
    (projectComplaint env s tid b).chat_messages = s.chat_messages ∧
    (projectComplaint env s tid b).ai_bot_logs = s.ai_bot_logs ∧
    (projectComplaint env s tid b).ticket_escalations = s.ticket_escalations ∧
    (projectComplaint env s tid b).orders = s.orders ∧
    (projectComplaint env s tid b).now = s.now := by
  by_cases h : (truthyNat (inferEffectiveRestaurantId env s b.restaurant_id b.order_id)
      && !env.complaintInsertFails) = true <;>
    simp [projectComplaint, h]

lemma createTicket_snd (env : Env) (s : Store) (userId : Nat) (b : CreateTicketBody)
    (hv : ¬ (b.ticket_type = "" ∨ b.subject = "" ∨ b.description = "")) :
    (createTicket env s userId b).2 =
      projectComplaint env
        (if (env.generateResponse b.description b.ticket_type).needsHuman
            || b.priority == "urgent"
         then escalateToHuman env (createTicketBase env s userId b) s.nextTicketId
            ("Auto-escalation: " ++
              if (env.generateResponse b.description b.ticket_type).needsHuman
              then "AI confidence low" else "Urgent priority")
         else createTicketBase env s userId b)
        s.nextTicketId b := by
  unfold createTicket
  rw [if_neg hv]

lemma createTicket_fst (env : Env) (s : Store) (userId : Nat) (b : CreateTicketBody)
    (hv : ¬ (b.ticket_type = "" ∨ b.subject = "" ∨ b.description = "")) :
    (createTicket env s userId b).1 =
      CreateResp.created "Support ticket created successfully" s.nextTicketId
        (env.generateResponse b.description b.ticket_type).message
        (env.generateResponse b.description b.ticket_type).needsHuman "open" := by
  unfold createTicket
  rw [if_neg hv]

lemma findTicket_createTicket (env : Env) (s : Store) (userId : Nat) (b : CreateTicketBody)
    (hv : ¬ (b.ticket_type = "" ∨ b.subject = "" ∨ b.description = ""))
    (hfresh : ∀ t ∈ s.support_tickets, t.ticket_id ≠ s.nextTicketId) :
    (((env.generateResponse b.description b.ticket_type).needsHuman
        || b.priority == "urgent") = true → activeAgents s ≠ [] →
      findTicket (createTicket env s userId b).2 s.nextTicketId =
        some { newTicket s userId b with
               assigned_to := some (env.chooseAgent (createTicketBase env s userId b)),
               status := "assigned", updated_at := s.now }) ∧
    (((env.generateResponse b.description b.ticket_type).needsHuman
        || b.priority == "urgent") = true → activeAgents s = [] →
      findTicket (createTicket env s userId b).2 s.nextTicketId =
        some (newTicket s userId b)) ∧
    (((env.generateResponse b.description b.ticket_type).needsHuman
        || b.priority == "urgent") = false →
      findTicket (createTicket env s userId b).2 s.nextTicketId =
        some (newTicket s userId b)) := by
  obtain ⟨hbu, hbo, hbe, hbc, hbn, hbt⟩ := createTicketBase_fields env s userId b
  have hfind : ((createTicketBase env s userId b).support_tickets.find?
      fun t => t.ticket_id == s.nextTicketId) = some (newTicket s userId b) := by
    rw [hbt]
    exact find?_append_fresh _ _ _ hfresh rfl
  have hAgents : activeAgents (createTicketBase env s userId b) = activeAgents s :=
    activeAgents_users_eq hbu
  refine ⟨?_, ?_, ?_⟩
  · intro htrig hne
    rw [createTicket_snd env s userId b hv, if_pos htrig]
    have hne' : activeAgents (createTicketBase env s userId b) ≠ [] := by
      rw [hAgents]; exact hne
    obtain ⟨_, _, _, _, _, hts, _, _⟩ :=
      escalateToHuman_fields env (createTicketBase env s userId b) s.nextTicketId _ hne'
    have hupd := find?_updateTicket (createTicketBase env s userId b).support_tickets
      s.nextTicketId
      (fun t => { t with
        assigned_to := some (env.chooseAgent (createTicketBase env s userId b)),
        status := "assigned", updated_at := (createTicketBase env s userId b).now })
      (fun t => rfl)
    unfold findTicket
    rw [(projectComplaint_fields env _ s.nextTicketId b).2.1, hts, hupd, hfind]
    simp [hbn]
  · intro htrig hemp
    rw [createTicket_snd env s userId b hv, if_pos htrig]
    have hemp' : activeAgents (createTicketBase env s userId b) = [] := by
      rw [hAgents]; exact hemp
    rw [escalateToHuman_noop env _ _ _ hemp']
    unfold findTicket
    rw [(projectComplaint_fields env _ s.nextTicketId b).2.1]
    exact hfind
  · intro htrig
    rw [createTicket_snd env s userId b hv, if_neg (by simp [htrig])]
    unfold findTicket
    rw [(projectComplaint_fields env _ s.nextTicketId b).2.1]
    exact hfind

lemma sendMessage_fst (env : Env) (s : Store) (userId : Nat) (userType : String)
    (tid : Nat) (b : SendMessageBody) (h : ¬ jsTrim b.message_text = "") :
    (sendMessage env s userId userType tid b).1 =
      MsgResp.created "Message sent successfully" s.nextMessageId := by
  unfold sendMessage
  rw [if_neg h]

lemma sendMessage_snd (env : Env) (s : Store) (userId : Nat) (userType : String)
    (tid : Nat) (b : SendMessageBody) (h : ¬ jsTrim b.message_text = "") :
    (sendMessage env s userId userType tid b).2 =
      (if userType = "student" then
        classifierFollowUp env
          { appendMessage s tid (some userId) (senderTypeMap userType) b.message_text
              b.is_internal_note false none with
            support_tickets :=
              updateTicket s.support_tickets tid (transitionOnAgentReply userType s.now) }
          tid b.message_text
       else
        { appendMessage s tid (some userId) (senderTypeMap userType) b.message_text
            b.is_internal_note false none with
          support_tickets :=
            updateTicket s.support_tickets tid (transitionOnAgentReply userType s.now) }) := by
  unfold sendMessage
  rw [if_neg h]
  rfl

lemma classifierFollowUp_none (env : Env) (s2 : Store) (tid : Nat) (txt : String)
    (hfind : findTicket s2 tid = none) :
    classifierFollowUp env s2 tid txt = s2 := by
  unfold classifierFollowUp
  rw [hfind]

lemma classifierFollowUp_skip (env : Env) (s2 : Store) (tid : Nat) (txt : String)
    (t : Ticket) (hfind : findTicket s2 tid = some t)
    (hass : truthyNat t.assigned_to = true) :
    classifierFollowUp env s2 tid txt = s2 := by
  unfold classifierFollowUp
  rw [hfind]
  simp [hass]

lemma classifierFollowUp_run (env : Env) (s2 : Store) (tid : Nat) (txt : String)
    (t : Ticket) (hfind : findTicket s2 tid = some t)
    (hass : truthyNat t.assigned_to = false) :
    (classifierFollowUp env s2 tid txt).ai_bot_logs =
      s2.ai_bot_logs ++
        [⟨tid, txt, (env.generateResponse txt t.ticket_type).message,
          (env.generateResponse txt t.ticket_type).intent,
          (env.generateResponse txt t.ticket_type).confidence,
          (env.generateResponse txt t.ticket_type).needsHuman⟩] ∧
    (∃ extra, (classifierFollowUp env s2 tid txt).chat_messages =
        s2.chat_messages ++
          [⟨s2.nextMessageId, tid, none, "ai_bot",
            (env.generateResponse txt t.ticket_type).message, false, true,
            some (env.generateResponse txt t.ticket_type).confidence, s2.now⟩] ++ extra ∧
        ∀ m ∈ extra, m.ai_confidence_score = none) ∧
    ((env.generateResponse txt t.ticket_type).needsHuman = false →
      (classifierFollowUp env s2 tid txt).ticket_escalations = s2.ticket_escalations) ∧
    ((env.generateResponse txt t.ticket_type).needsHuman = true → activeAgents s2 = [] →
      (classifierFollowUp env s2 tid txt).ticket_escalations = s2.ticket_escalations) ∧
    ((env.generateResponse txt t.ticket_type).needsHuman = true → activeAgents s2 ≠ [] →
      ∃ a, (classifierFollowUp env s2 tid txt).ticket_escalations =
        s2.ticket_escalations ++ [⟨tid, none, a, "AI escalation recommended", "agent"⟩]) := by
  unfold classifierFollowUp
  rw [hfind]
  simp only [hass, Bool.false_eq_true, reduceIte]
  by_cases hnh : (env.generateResponse txt t.ticket_type).needsHuman = true
  · rw [if_pos hnh]
    by_cases hemp : activeAgents s2 = []
    · have hemp5 : activeAgents (recordAIReply env s2 tid txt t.ticket_type) = [] := hemp
      rw [escalateToHuman_noop env (recordAIReply env s2 tid txt t.ticket_type) tid
        "AI escalation recommended" hemp5]
      refine ⟨rfl, ⟨[], by simp [recordAIReply, appendMessage], by simp⟩, ?_, ?_, ?_⟩
      · intro h'
        exact absurd hnh (by simp [h'])
      · intro _ _
        rfl
      · intro _ hne
        exact absurd hemp hne
    · have hne5 : activeAgents (recordAIReply env s2 tid txt t.ticket_type) ≠ [] := hemp
      obtain ⟨_, _, hlog, _, _, _, hchat, hesc⟩ :=
        escalateToHuman_fields env (recordAIReply env s2 tid txt t.ticket_type) tid
          "AI escalation recommended" hne5
      refine ⟨hlog.trans rfl, ?_, ?_, ?_, ?_⟩
      · refine ⟨[⟨(recordAIReply env s2 tid txt t.ticket_type).nextMessageId, tid, none,
          "ai_bot", agentJoinedText, false, true, none,
          (recordAIReply env s2 tid txt t.ticket_type).now⟩], hchat.trans rfl, ?_⟩
        intro m hm
        simp only [List.mem_singleton] at hm
        rw [hm]
      · intro h'
        exact absurd hnh (by simp [h'])
      · intro _ hemp'
        exact absurd hemp' hemp
      · intro _ _
        exact ⟨env.chooseAgent (recordAIReply env s2 tid txt t.ticket_type), hesc.trans rfl⟩
  · rw [if_neg hnh]
    refine ⟨rfl, ⟨[], by simp [recordAIReply, appendMessage], by simp⟩, ?_, ?_, ?_⟩
    · intro _
      rfl
    · intro h' _
      exact absurd h' hnh
    · intro h' _
      exact absurd h' hnh

lemma findTicket_classifierFollowUp_run (env : Env) (s2 : Store) (tid : Nat) (txt : String)
    (t : Ticket) (hfind : findTicket s2 tid = some t)
    (hass : truthyNat t.assigned_to = false) :
    findTicket (classifierFollowUp env s2 tid txt) tid = some t ∨
    ∃ a, findTicket (classifierFollowUp env s2 tid txt) tid =
      some { t with assigned_to := some a, status := "assigned", updated_at := s2.now } := by
  unfold classifierFollowUp
  rw [hfind]
  simp only [hass, Bool.false_eq_true, reduceIte]
  by_cases hnh : (env.generateResponse txt t.ticket_type).needsHuman = true
  · rw [if_pos hnh]
    by_cases hemp : activeAgents s2 = []
    · left
      have hemp5 : activeAgents (recordAIReply env s2 tid txt t.ticket_type) = [] := hemp
      rw [escalateToHuman_noop env (recordAIReply env s2 tid txt t.ticket_type) tid
        "AI escalation recommended" hemp5]
      exact hfind
    · right
      have hne5 : activeAgents (recordAIReply env s2 tid txt t.ticket_type) ≠ [] := hemp
      obtain ⟨_, _, _, _, _, hts, _, _⟩ :=
        escalateToHuman_fields env (recordAIReply env s2 tid txt t.ticket_type) tid
          "AI escalation recommended" hne5
      refine ⟨env.chooseAgent (recordAIReply env s2 tid txt t.ticket_type), ?_⟩
      have hupd := find?_updateTicket (recordAIReply env s2 tid txt t.ticket_type).support_tickets
        tid
        (fun u => { u with
          assigned_to := some (env.chooseAgent (recordAIReply env s2 tid txt t.ticket_type)),
          status := "assigned", updated_at := (recordAIReply env s2 tid txt t.ticket_type).now })
        (fun u => rfl)
      have hbase : ((recordAIReply env s2 tid txt t.ticket_type).support_tickets.find?
          fun u => u.ticket_id == tid) = some t := hfind
      unfold findTicket
      rw [hts, hupd, hbase]
      rfl
  · rw [if_neg hnh]
    left
    exact hfind

lemma classifierFollowUp_chat_mem (env : Env) (s2 : Store) (tid : Nat) (txt : String)
    (m : ChatMessage) (hm : m ∈ s2.chat_messages) :
    m ∈ (classifierFollowUp env s2 tid txt).chat_messages := by
  unfold classifierFollowUp
  cases hfind : findTicket s2 tid with
  | none => exact hm
  | some t =>
    by_cases hass : truthyNat t.assigned_to = true
    · simp only [hass, reduceIte]
      exact hm
    · have hass' : truthyNat t.assigned_to = false := by simpa using hass
      simp only [hass', Bool.false_eq_true, reduceIte]
      by_cases hnh : (env.generateResponse txt t.ticket_type).needsHuman = true
      · rw [if_pos hnh]
        obtain ⟨⟨l, hl⟩, _, _⟩ := escalateToHuman_tickets_chat_suffix env
          (recordAIReply env s2 tid txt t.ticket_type) tid "AI escalation recommended"
        rw [hl]
        apply List.mem_append_left
        show m ∈ s2.chat_messages ++ [_]
        exact List.mem_append_left _ hm
      · rw [if_neg hnh]
        show m ∈ s2.chat_messages ++ [_]
        exact List.mem_append_left _ hm

lemma findTicket_postStore (s : Store) (userId : Nat) (userType : String) (tid : Nat)
    (b : SendMessageBody) (t : Ticket) (ht : findTicket s tid = some t) :
    findTicket
      { appendMessage s tid (some userId) (senderTypeMap userType) b.message_text
          b.is_internal_note false none with
        support_tickets :=
          updateTicket s.support_tickets tid (transitionOnAgentReply userType s.now) }
      tid = some (transitionOnAgentReply userType s.now t) := by
  have hupd := find?_updateTicket s.support_tickets tid
    (transitionOnAgentReply userType s.now) (fun u => rfl)
  show (updateTicket s.support_tickets tid (transitionOnAgentReply userType s.now)).find?
    (fun u => u.ticket_id == tid) = _
  rw [hupd]
  unfold findTicket at ht
  rw [ht]
  rfl

lemma senderTypeMap_ne_ai (userType : String) : (senderTypeMap userType == "ai_bot") = false := by
  unfold senderTypeMap
  split <;> first | rfl | (split <;> first | rfl | (split <;> first | rfl | (split <;> rfl)))

lemma escalateToHuman_orders (env : Env) (s : Store) (tid : Nat) (reason : String) :
    (escalateToHuman env s tid reason).orders = s.orders := by
  by_cases h : activeAgents s = []
  · rw [escalateToHuman_noop env s tid reason h]
  · exact (escalateToHuman_fields env s tid reason h).2.1

lemma projectComplaint_skip (env : Env) (s : Store) (tid : Nat) (b : CreateTicketBody)
    (h : truthyNat (inferEffectiveRestaurantId env s b.restaurant_id b.order_id) = false) :
    projectComplaint env s tid b = s := by
  simp [projectComplaint, h]

lemma projectComplaint_insert (env : Env) (s : Store) (tid : Nat) (b : CreateTicketBody)
    (r : Nat)
    (hinf : inferEffectiveRestaurantId env s b.restaurant_id b.order_id = some r)
    (hr : r ≠ 0) (hfail : env.complaintInsertFails = false) :
    projectComplaint env s tid b =
      { s with restaurant_complaints := s.restaurant_complaints ++
          [⟨tid, r, b.ticket_type, complaintSummary b.subject b.description⟩] } := by
  simp [projectComplaint, hinf, hfail, truthyNat, hr]

lemma infer_neither (env : Env) (s : Store) (rid oid : Option Nat)
    (h1 : truthyNat rid = false) (h2 : truthyNat oid = false) :
    inferEffectiveRestaurantId env s rid oid = rid := by
  simp [inferEffectiveRestaurantId, h1, h2]

lemma infer_explicit (env : Env) (s : Store) (rid oid : Option Nat)
    (h : truthyNat rid = true) :
    inferEffectiveRestaurantId env s rid oid = rid := by
  simp [inferEffectiveRestaurantId, h]

lemma infer_order (env : Env) (s : Store) (rid : Option Nat) (oid : Nat)
    (h1 : truthyNat rid = false) (ho : oid ≠ 0)
    (hfail : env.orderLookupFails = false) (row : OrderRow)
    (hrow : (s.orders.find? fun o => o.order_id == oid) = some row) :
    inferEffectiveRestaurantId env s rid (some oid) = row.restaurant_id := by
  have hoid : truthyNat (some oid) = true := by simp [truthyNat, ho]
  simp [inferEffectiveRestaurantId, h1, hoid, hfail, hrow]

lemma ticketBefore_imp (a b : Ticket) (h : ticketBefore a b) :
    priorityRank b.priority ≤ priorityRank a.priority ∧
    (priorityRank a.priority = priorityRank b.priority → a.created_at ≤ b.created_at) := by
  unfold ticketBefore at h
  omega

lemma mem_sortByCreatedAt (m : ChatMessage) (l : List ChatMessage) :
    m ∈ sortByCreatedAt l ↔ m ∈ l := by
  unfold sortByCreatedAt
  exact (List.perm_insertionSort msgBefore l).mem_iff

lemma createTicket_mid_fields (env : Env) (s : Store) (userId : Nat) (b : CreateTicketBody)
    (hv : ¬ (b.ticket_type = "" ∨ b.subject = "" ∨ b.description = "")) :
    ∃ sMid, (createTicket env s userId b).2 = projectComplaint env sMid s.nextTicketId b ∧
      sMid.restaurant_complaints = s.restaurant_complaints ∧ sMid.orders = s.orders := by
  refine ⟨_, createTicket_snd env s userId b hv, ?_, ?_⟩
  · split
    · rw [escalateToHuman_complaints]
      exact (createTicketBase_fields env s userId b).2.2.2.1
    · exact (createTicketBase_fields env s userId b).2.2.2.1
  · split
    · rw [escalateToHuman_orders]
      exact (createTicketBase_fields env s userId b).2.1
    · exact (createTicketBase_fields env s userId b).2.1

lemma envCalm_sound : envCalm.SoundAgentChoice := fun s h => chooseFirstAgent_least s h

lemma envHelp_sound : envHelp.SoundAgentChoice := fun s h => chooseFirstAgent_least s h

lemma envCalmLast_sound : envCalmLast.SoundAgentChoice := fun s h => chooseLastAgent_least s h

/-! ### Claim theorems -/

/-- C1 (amended): for every valid ticket-creation request the success
response carries the new ticket id, the AI response text, the initial
status open, and an escalated flag equal to the needsHuman flag of the classifier
verdict — not to whether escalation was actually triggered. -/
theorem C1_success_response_fields (env : Env) (s : Store) (userId : Nat)
    (b : CreateTicketBody)
    (hv : ¬ (b.ticket_type = "" ∨ b.subject = "" ∨ b.description = "")) :
    (createTicket env s userId b).1 =
      CreateResp.created "Support ticket created successfully" s.nextTicketId
        (env.generateResponse b.description b.ticket_type).message
        (env.generateResponse b.description b.ticket_type).needsHuman "open" :=
  createTicket_fst env s userId b hv

/-- Witness for C1 at the end-to-end scenario of the spec. -/
theorem C1_success_response_fields_witness :
    (createTicket envCalm sOneAgent 7 bodyUrgent).1 =
      CreateResp.created "Support ticket created successfully" 1
        "Here is some help." false "open" :=
  C1_success_response_fields envCalm sOneAgent 7 bodyUrgent (by decide)

/-- C1 counterexample: priority urgent, one active agent of load 0, and a
verdict with needsHuman = false: escalation runs (the ticket ends
assigned to agent 1 with status assigned) yet the response carries
escalated = false, refuting that the flag is true exactly when
escalation was triggered. -/
theorem C1_counterexample :
    (createTicket envCalm sOneAgent 7 bodyUrgent).1 =
      CreateResp.created "Support ticket created successfully" 1
        "Here is some help." false "open" ∧
    (findTicket (createTicket envCalm sOneAgent 7 bodyUrgent).2 1).map Ticket.assigned_to =
      some (some 1) ∧
    (findTicket (createTicket envCalm sOneAgent 7 bodyUrgent).2 1).map Ticket.status =
      some "assigned" :=
  ⟨rfl, rfl, rfl⟩

/-- C2 (amended): every escalation with at least one active agent assigns
an active agent whose current open load is minimal among active agents
and records that agent in the appended escalation record; which
minimal-load agent is chosen among ties is not determined (the query has
no secondary sort key). -/
theorem C2_escalation_selects_least_loaded (env : Env) (henv : env.SoundAgentChoice)
    (s : Store) (tid : Nat) (reason : String) (h : activeAgents s ≠ []) :
    IsLeastLoadedAgent s (env.chooseAgent s) ∧
    (escalateToHuman env s tid reason).ticket_escalations =
      s.ticket_escalations ++ [⟨tid, none, env.chooseAgent s, reason, "agent"⟩] ∧
    ∀ t ∈ (escalateToHuman env s tid reason).support_tickets, t.ticket_id = tid →
      t.assigned_to = some (env.chooseAgent s) := by
  obtain ⟨_, _, _, _, _, hts, _, hesc⟩ := escalateToHuman_fields env s tid reason h
  refine ⟨henv s h, hesc, ?_⟩
  intro t htmem httid
  rw [hts] at htmem
  unfold updateTicket at htmem
  obtain ⟨u, hu, heq⟩ := List.mem_map.mp htmem
  by_cases hid : u.ticket_id = tid
  · rw [if_pos hid] at heq
    rw [← heq]
  · rw [if_neg hid] at heq
    rw [← heq] at httid
    exact absurd httid hid

/-- Witness for C2: two active agents of load 0; the first-in-table
choice assigns agent 1 and is a minimal-load agent. -/
theorem C2_escalation_selects_least_loaded_witness :
    IsLeastLoadedAgent sTwoAgents 1 ∧
    (escalateToHuman envCalm sTwoAgents 1 "load balance").ticket_escalations =
      [⟨1, none, 1, "load balance", "agent"⟩] :=
  ⟨(C2_escalation_selects_least_loaded envCalm envCalm_sound sTwoAgents 1
      "load balance" (by decide)).1,
   (C2_escalation_selects_least_loaded envCalm envCalm_sound sTwoAgents 1
      "load balance" (by decide)).2.1⟩

/-- C2 counterexample: agents 1 and 2 both have load 0; a run consistent
with the escalation query assigns agent 2 although agent 1 is the
minimal-load agent of lowest identity, so the tie-break is not lowest
identity and the selection is not a function of the store state. -/
theorem C2_counterexample :
    Env.SoundAgentChoice envCalmLast ∧
    IsLeastLoadedAgent sTwoAgents 1 ∧
    (escalateToHuman envCalmLast sTwoAgents 1 "load balance").ticket_escalations =
      [⟨1, none, 2, "load balance", "agent"⟩] :=
  ⟨envCalmLast_sound, by decide, by decide⟩

/-- C7 (amended): the persisted priority equals the supplied value
whenever the priority field is a non-empty string — even a value outside
low, medium, high, urgent is passed through unvalidated — and defaults
to medium only when the field is absent or empty. -/
theorem C7_priority_persisted (env : Env) (s : Store) (userId : Nat) (b : CreateTicketBody)
    (hv : ¬ (b.ticket_type = "" ∨ b.subject = "" ∨ b.description = ""))
    (hfresh : ∀ t ∈ s.support_tickets, t.ticket_id ≠ s.nextTicketId) :
    (findTicket (createTicket env s userId b).2 s.nextTicketId).map Ticket.priority =
      some (if b.priority = "" then "medium" else b.priority) := by
  obtain ⟨h1, h2, h3⟩ := findTicket_createTicket env s userId b hv hfresh
  by_cases htrig : ((env.generateResponse b.description b.ticket_type).needsHuman
      || b.priority == "urgent") = true
  · by_cases hemp : activeAgents s = []
    · rw [h2 htrig hemp]
      rfl
    · rw [h1 htrig hemp]
      rfl
  · rw [h3 (by simpa using htrig)]
    rfl

/-- Witness for C7: the non-enumerated priority banana is persisted
verbatim. -/
theorem C7_priority_persisted_witness :
    (findTicket (createTicket envCalm sOneAgent 7 bodyBanana).2 1).map Ticket.priority =
      some "banana" :=
  C7_priority_persisted envCalm sOneAgent 7 bodyBanana (by decide) (by decide)

/-- C7 counterexample: priority "banana" is not among the four known
values, yet the persisted priority is "banana", not the default
"medium". -/
theorem C7_counterexample :
    (findTicket (createTicket envCalm sOneAgent 7 bodyBanana).2 1).map Ticket.priority
      ≠ some "medium" ∧
    (findTicket (createTicket envCalm sOneAgent 7 bodyBanana).2 1).map Ticket.priority =
      some "banana" ∧
    "banana" ∉ ["low", "medium", "high", "urgent"] :=
  ⟨by decide, rfl, by decide⟩

/-- C3: when the verdict requests a human or the supplied priority is
urgent: with at least one active agent the created ticket ends assigned
(status assigned, non-null agent); with no active agent the escalation
writes nothing — the ticket stays open and unassigned, the message
ledger gains exactly the opening customer message and the AI reply (no
hand-off notice), no escalation record appears — and the request still
returns the success response. -/
theorem C3_escalation_trigger_outcome (env : Env) (s : Store) (userId : Nat)
    (b : CreateTicketBody)
    (hv : ¬ (b.ticket_type = "" ∨ b.subject = "" ∨ b.description = ""))
    (htrig : (env.generateResponse b.description b.ticket_type).needsHuman = true ∨
      b.priority = "urgent")
    (hfresh : ∀ t ∈ s.support_tickets, t.ticket_id ≠ s.nextTicketId) :
    (createTicket env s userId b).1 =
      CreateResp.created "Support ticket created successfully" s.nextTicketId
        (env.generateResponse b.description b.ticket_type).message
        (env.generateResponse b.description b.ticket_type).needsHuman "open" ∧
    (activeAgents s ≠ [] →
      ∃ t', findTicket (createTicket env s userId b).2 s.nextTicketId = some t' ∧
        t'.status = "assigned" ∧ t'.assigned_to ≠ none) ∧
    (activeAgents s = [] →
      findTicket (createTicket env s userId b).2 s.nextTicketId =
        some (newTicket s userId b) ∧
      (newTicket s userId b).status = "open" ∧
      (newTicket s userId b).assigned_to = none ∧
      (createTicket env s userId b).2.ticket_escalations = s.ticket_escalations ∧
      (createTicket env s userId b).2.chat_messages =
        s.chat_messages ++
          [⟨s.nextMessageId, s.nextTicketId, some userId, "customer", b.description,
            false, false, none, s.now⟩,
           ⟨s.nextMessageId + 1, s.nextTicketId, none, "ai_bot",
            (env.generateResponse b.description b.ticket_type).message, false, true,
            some (env.generateResponse b.description b.ticket_type).confidence, s.now⟩]) := by
  have htrigB : ((env.generateResponse b.description b.ticket_type).needsHuman
      || b.priority == "urgent") = true := by
    rcases htrig with h | h
    · simp [h]
    · simp [h]
  obtain ⟨h1, h2, _⟩ := findTicket_createTicket env s userId b hv hfresh
  refine ⟨createTicket_fst env s userId b hv, ?_, ?_⟩
  · intro hne
    exact ⟨_, h1 htrigB hne, rfl, by simp⟩
  · intro hemp
    have hemp' : activeAgents (createTicketBase env s userId b) = [] := hemp
    have hsnd := createTicket_snd env s userId b hv
    rw [if_pos htrigB, escalateToHuman_noop env _ _ _ hemp'] at hsnd
    refine ⟨h2 htrigB hemp, rfl, rfl, ?_, ?_⟩
    · rw [hsnd, (projectComplaint_fields env _ s.nextTicketId b).2.2.2.2.1]
      exact (createTicketBase_fields env s userId b).2.2.1
    · rw [hsnd, (projectComplaint_fields env _ s.nextTicketId b).2.2.1]
      simp [createTicketBase, appendMessage]

/-- Witness for C3 at the no-active-agent branch: a needsHuman verdict
with no agents available leaves no escalation record and returns the
success response. -/
theorem C3_escalation_trigger_outcome_witness :
    (createTicket envHelp sNoAgent 7 bodyUrgent).2.ticket_escalations = [] :=
  ((C3_escalation_trigger_outcome envHelp sNoAgent 7 bodyUrgent (by decide)
    (Or.inl rfl) (by decide)).2.2 rfl).2.2.2.1

/-- C4 (amended): the message-listing operation never returns an
internal-note message to a viewer whose role is not support_agent,
senior_support or admin; the debug read path, however, carries no role
filter and exposes internal notes to any authenticated caller. -/
theorem C4_internal_notes_hidden_in_listing (s : Store) (userId : Nat)
    (userType : String) (tid : Nat)
    (h1 : userType ≠ "support_agent") (h2 : userType ≠ "senior_support")
    (h3 : userType ≠ "admin") :
    ∀ ms, getTicketMessages s userId userType tid = ListResp.ok ms →
      ∀ m ∈ ms, m.is_internal_note = false := by
  intro ms hms m hm
  unfold getTicketMessages at hms
  split at hms
  · cases hms
  · injection hms with hms
    subst hms
    rw [mem_sortByCreatedAt] at hm
    have hvis := (List.mem_filter.mp hm).2
    simp only [visibleToRole, Bool.and_eq_true, Bool.or_eq_true, Bool.not_eq_true',
      beq_iff_eq] at hvis
    rcases hvis.2 with h | h
    · exact h
    · rcases h with (h | h) | h
      · exact absurd h h1
      · exact absurd h h2
      · exact absurd h h3

/-- Witness for C4: a student viewing their own ticket sees only the
non-internal message, which indeed carries no internal flag. -/
theorem C4_internal_notes_hidden_witness :
    pubMsg.is_internal_note = false :=
  C4_internal_notes_hidden_in_listing sLeak 7 "student" 1 (by decide) (by decide)
    (by decide) [pubMsg] (by decide) pubMsg (by decide)

/-- C4 counterexample: the debug read route carries no role restriction
and returns the internal note of ticket 1 in the full message history,
so a customer-role caller can read it. -/
theorem C4_counterexample :
    debugTicketRouteRoles = none ∧
    debugTicket sLeak 1 = DebugResp.ok openTicket1 [pubMsg, internalNote] [] ∧
    internalNote.is_internal_note = true :=
  ⟨rfl, by decide, rfl⟩

/-- C5: on a post to an existing ticket with non-empty text: if the
user type of the sender is support_agent or senior_support the ticket row
becomes its reply transition (open moves to in_progress, anything else
keeps its status) with updated-at refreshed; the reply transition for
any other user type never changes the status; and whatever the user
type, the updated-at of the ticket ends refreshed to the request time. -/
theorem C5_reply_status_transition (env : Env) (s : Store) (userId : Nat)
    (userType : String) (tid : Nat) (b : SendMessageBody) (t : Ticket)
    (htxt : ¬ jsTrim b.message_text = "") (ht : findTicket s tid = some t) :
    (userType = "support_agent" ∨ userType = "senior_support" →
      findTicket (sendMessage env s userId userType tid b).2 tid =
        some { t with
          status := if t.status = "open" then "in_progress" else t.status,
          updated_at := s.now }) ∧
    (∀ (role : String) (now : Nat) (u : Ticket),
      role ≠ "support_agent" → role ≠ "senior_support" →
      (transitionOnAgentReply role now u).status = u.status ∧
      (transitionOnAgentReply role now u).updated_at = now) ∧
    (∃ u, findTicket (sendMessage env s userId userType tid b).2 tid = some u ∧
      u.updated_at = s.now) := by
  have hsnd := sendMessage_snd env s userId userType tid b htxt
  have hpost := findTicket_postStore s userId userType tid b t ht
  refine ⟨?_, ?_, ?_⟩
  · intro hrole
    have hstu : ¬ userType = "student" := by
      rcases hrole with h | h <;> simp [h]
    rw [hsnd, if_neg hstu, hpost]
    rcases hrole with h | h <;> subst h <;> simp [transitionOnAgentReply]
  · intro role now u hr1 hr2
    refine ⟨?_, rfl⟩
    simp [transitionOnAgentReply, hr1, hr2]
  · by_cases hstu : userType = "student"
    · rw [hsnd, if_pos hstu]
      by_cases hass : truthyNat (transitionOnAgentReply userType s.now t).assigned_to = true
      · rw [classifierFollowUp_skip env _ tid b.message_text _ hpost hass]
        exact ⟨_, hpost, rfl⟩
      · have hass' : truthyNat (transitionOnAgentReply userType s.now t).assigned_to = false := by
          simpa using hass
        rcases findTicket_classifierFollowUp_run env _ tid b.message_text _ hpost hass'
          with hfd | ⟨a, hfd⟩
        · exact ⟨_, hfd, rfl⟩
        · exact ⟨_, hfd, rfl⟩
    · rw [hsnd, if_neg hstu]
      exact ⟨_, hpost, rfl⟩

/-- Witness for C5: an agent reply to the open ticket 1 moves it to
in_progress with updated-at refreshed. -/
theorem C5_reply_status_transition_witness :
    findTicket (sendMessage envCalm sLeak 1 "support_agent" 1 replyBody).2 1 =
      some { openTicket1 with status := "in_progress", updated_at := 100 } :=
  (C5_reply_status_transition envCalm sLeak 1 "support_agent" 1 replyBody openTicket1
    (by decide) (by decide)).1 (Or.inl rfl)

/-- C6: on a post with non-empty text to an existing ticket, the
classifier runs exactly when the user type of the sender is student and the
ticket has no truthy assigned agent: then exactly one classifier log
entry and one confidence-carrying AI reply are appended, and an
escalation record is appended exactly when the new verdict's needsHuman
is true and an active agent exists. Posts by any other user type, and
student posts to assigned tickets, append no log, no AI reply and no
escalation record. -/
theorem C6_classifier_reinvocation (env : Env) (s : Store) (userId : Nat)
    (userType : String) (tid : Nat) (b : SendMessageBody) (t : Ticket)
    (htxt : ¬ jsTrim b.message_text = "") (ht : findTicket s tid = some t) :
    (userType ≠ "student" →
      (sendMessage env s userId userType tid b).2.ai_bot_logs = s.ai_bot_logs ∧
      aiReplyCount (sendMessage env s userId userType tid b).2 tid = aiReplyCount s tid ∧
      (sendMessage env s userId userType tid b).2.ticket_escalations =
        s.ticket_escalations) ∧
    (userType = "student" → truthyNat t.assigned_to = true →
      (sendMessage env s userId userType tid b).2.ai_bot_logs = s.ai_bot_logs ∧
      aiReplyCount (sendMessage env s userId userType tid b).2 tid = aiReplyCount s tid ∧
      (sendMessage env s userId userType tid b).2.ticket_escalations =
        s.ticket_escalations) ∧
    (userType = "student" → truthyNat t.assigned_to = false →
      (sendMessage env s userId userType tid b).2.ai_bot_logs =
        s.ai_bot_logs ++
          [⟨tid, b.message_text,
            (env.generateResponse b.message_text t.ticket_type).message,
            (env.generateResponse b.message_text t.ticket_type).intent,
            (env.generateResponse b.message_text t.ticket_type).confidence,
            (env.generateResponse b.message_text t.ticket_type).needsHuman⟩] ∧
      aiReplyCount (sendMessage env s userId userType tid b).2 tid =
        aiReplyCount s tid + 1 ∧
      ((env.generateResponse b.message_text t.ticket_type).needsHuman = false →
        (sendMessage env s userId userType tid b).2.ticket_escalations =
          s.ticket_escalations) ∧
      ((env.generateResponse b.message_text t.ticket_type).needsHuman = true →
        activeAgents s = [] →
        (sendMessage env s userId userType tid b).2.ticket_escalations =
          s.ticket_escalations) ∧
      ((env.generateResponse b.message_text t.ticket_type).needsHuman = true →
        activeAgents s ≠ [] →
        escalationRecordCount (sendMessage env s userId userType tid b).2 tid =
          escalationRecordCount s tid + 1)) := by
  have hsnd := sendMessage_snd env s userId userType tid b htxt
  have hpost := findTicket_postStore s userId userType tid b t ht
  refine ⟨?_, ?_, ?_⟩
  · intro hstu
    rw [hsnd, if_neg hstu]
    refine ⟨rfl, ?_, rfl⟩
    simp [aiReplyCount, appendMessage, List.filter_append]
  · intro hstu hass
    rw [hsnd, if_pos hstu]
    have hass' : truthyNat (transitionOnAgentReply userType s.now t).assigned_to = true := hass
    rw [classifierFollowUp_skip env _ tid b.message_text _ hpost hass']
    refine ⟨rfl, ?_, rfl⟩
    simp [aiReplyCount, appendMessage, List.filter_append]
  · intro hstu hass
    rw [hsnd, if_pos hstu]
    have hass' : truthyNat (transitionOnAgentReply userType s.now t).assigned_to = false := hass
    obtain ⟨hlog, ⟨extra, hchat, hextra⟩, hesc1, hesc2, hesc3⟩ :=
      classifierFollowUp_run env _ tid b.message_text _ hpost hass'
    refine ⟨hlog.trans rfl, ?_, ?_, ?_, ?_⟩
    · have hextra0 : extra.filter (fun m => m.ticket_id == tid &&
          (m.sender_type == "ai_bot" && m.ai_confidence_score.isSome)) = [] := by
        rw [List.filter_eq_nil_iff]
        intro m hm
        simp [hextra m hm]
      unfold aiReplyCount
      rw [hchat]
      simp [List.filter_append, hextra0, appendMessage]
    · intro hnh
      exact (hesc1 hnh).trans rfl
    · intro hnh hemp
      exact (hesc2 hnh hemp).trans rfl
    · intro hnh hne
      obtain ⟨a, ha⟩ := hesc3 hnh hne
      unfold escalationRecordCount
      rw [ha]
      simp [List.filter_append, appendMessage]

/-- Witness for C6: a student reply on the unassigned open ticket 1 with
a needsHuman verdict appends exactly the one classifier log entry. -/
theorem C6_classifier_reinvocation_witness :
    (sendMessage envHelp sLeak 7 "student" 1 replyBody).2.ai_bot_logs =
      [⟨1, "Any update on this?", "Let me connect you to an agent.", "handoff", 30, true⟩] :=
  ((C6_classifier_reinvocation envHelp sLeak 7 "student" 1 replyBody openTicket1
    (by decide) (by decide)).2.2 rfl (by decide)).1

/-- C8: the complaint projection of a successfully created ticket: with
neither a truthy restaurant nor a truthy order, no complaint row is
written; with a truthy explicit restaurant, or an order whose lookup
resolves to a truthy restaurant, exactly one row is appended carrying
the category of the ticket and the subject-description-null summary
fallback; and the failure oracles of the projection never change the success
response. -/
theorem C8_complaint_projection (env : Env) (s : Store) (userId : Nat)
    (b : CreateTicketBody)
    (hv : ¬ (b.ticket_type = "" ∨ b.subject = "" ∨ b.description = "")) :
    (truthyNat b.restaurant_id = false → truthyNat b.order_id = false →
      (createTicket env s userId b).2.restaurant_complaints = s.restaurant_complaints) ∧
    (env.complaintInsertFails = false → ∀ r, b.restaurant_id = some r → r ≠ 0 →
      (createTicket env s userId b).2.restaurant_complaints =
        s.restaurant_complaints ++
          [⟨s.nextTicketId, r, b.ticket_type, complaintSummary b.subject b.description⟩]) ∧
    (env.complaintInsertFails = false → env.orderLookupFails = false →
      truthyNat b.restaurant_id = false → ∀ oid, b.order_id = some oid → oid ≠ 0 →
      ∀ row, (s.orders.find? fun o => o.order_id == oid) = some row →
      ∀ r, row.restaurant_id = some r → r ≠ 0 →
      (createTicket env s userId b).2.restaurant_complaints =
        s.restaurant_complaints ++
          [⟨s.nextTicketId, r, b.ticket_type, complaintSummary b.subject b.description⟩]) ∧
    (createTicket env s userId b).1 =
      CreateResp.created "Support ticket created successfully" s.nextTicketId
        (env.generateResponse b.description b.ticket_type).message
        (env.generateResponse b.description b.ticket_type).needsHuman "open" := by
  obtain ⟨sMid, hmid, hcomp, hord⟩ := createTicket_mid_fields env s userId b hv
  refine ⟨?_, ?_, ?_, createTicket_fst env s userId b hv⟩
  · intro hr ho
    rw [hmid, projectComplaint_skip]
    · exact hcomp
    · rw [infer_neither env sMid b.restaurant_id b.order_id hr ho]
      exact hr
  · intro hfail r hr hr0
    have hrt : truthyNat b.restaurant_id = true := by
      rw [hr]
      simp [truthyNat, hr0]
    have hinf := (infer_explicit env sMid b.restaurant_id b.order_id hrt).trans hr
    rw [hmid, projectComplaint_insert env sMid s.nextTicketId b r hinf hr0 hfail]
    show sMid.restaurant_complaints ++ _ = _
    rw [hcomp]
  · intro hfail hlfail hr oid hoid hoid0 row hrow r hrrow hr0
    have hrow' : (sMid.orders.find? fun o => o.order_id == oid) = some row := by
      rw [hord]
      exact hrow
    have hinf := infer_order env sMid b.restaurant_id oid hr hoid0 hlfail row hrow'
    have hinf2 : inferEffectiveRestaurantId env sMid b.restaurant_id b.order_id = some r := by
      rw [hoid, hinf, hrrow]
    rw [hmid, projectComplaint_insert env sMid s.nextTicketId b r hinf2 hr0 hfail]
    show sMid.restaurant_complaints ++ _ = _
    rw [hcomp]

/-- Witness for C8: a ticket on order 9 whose restaurant resolves to 5
produces exactly one complaint row with the category of the ticket and the
subject as summary. -/
theorem C8_complaint_projection_witness :
    (createTicket envCalm sWithOrder 7 bodyOrder).2.restaurant_complaints =
      [⟨1, 5, "order_issue", some "Late order"⟩] :=
  ((C8_complaint_projection envCalm sWithOrder 7 bodyOrder (by decide)).2.2.1
    rfl rfl rfl 9 rfl (by decide) order9 (by decide) 5 rfl (by decide))

/-- C9: the agent-facing open-ticket query returns no resolved or closed
ticket; for a plain support_agent caller every returned ticket is
unassigned or assigned to the caller; and the result is pairwise
ordered by priority descending (urgent > high > medium > low, modelled
from the enumeration order in the spec since the SQL schema is not under
src/) with creation time ascending among equal priorities. -/
theorem C9_agent_open_queue (s : Store) (agentId : Nat) (userType : String)
    (status priority : Option String) :
    (∀ t ∈ getAllTickets s agentId userType status priority,
      t.status ≠ "resolved" ∧ t.status ≠ "closed") ∧
    (userType = "support_agent" →
      ∀ t ∈ getAllTickets s agentId userType status priority,
        t.assigned_to = none ∨ t.assigned_to = some agentId) ∧
    List.Pairwise (fun a b => priorityRank b.priority ≤ priorityRank a.priority ∧
        (priorityRank a.priority = priorityRank b.priority → a.created_at ≤ b.created_at))
      (getAllTickets s agentId userType status priority) := by
  refine ⟨?_, ?_, ?_⟩
  · intro t htm
    simp only [getAllTickets] at htm
    rw [(List.perm_insertionSort ticketBefore _).mem_iff] at htm
    have h := (List.mem_filter.mp htm).2
    simp only [Bool.and_eq_true, bne_iff_ne, ne_eq] at h
    exact ⟨h.1.1.1.2.1, h.1.1.1.2.2⟩
  · intro hrole t htm
    simp only [getAllTickets] at htm
    rw [(List.perm_insertionSort ticketBefore _).mem_iff] at htm
    have h := (List.mem_filter.mp htm).2
    rw [hrole] at h
    simp only [Bool.and_eq_true, Bool.or_eq_true, bne_self_eq_false, Bool.false_eq_true,
      false_or, beq_iff_eq] at h
    exact h.1.1.2
  · simp only [getAllTickets]
    exact List.Pairwise.imp (fun h => ticketBefore_imp _ _ h)
      (List.sorted_insertionSort ticketBefore _)

/-- Witness for C9: in the sample queue the urgent open ticket is
returned to agent 1 and is unassigned. -/
theorem C9_agent_open_queue_witness :
    qTicketB.assigned_to = none ∨ qTicketB.assigned_to = some 1 :=
  (C9_agent_open_queue sQueue 1 "support_agent" none none).2.1 rfl qTicketB (by decide)

/-- C10: sendMessage checks nothing beyond authentication: its route has
no role restriction, and for any user of any type posting non-empty
text to an existing ticket the call succeeds and appends the message to
that ticket — even a customer who does not own it — whereas
getTicketMessages rejects a non-owner student with Access denied. -/
theorem C10_post_needs_no_ownership (env : Env) (s : Store) (userId : Nat)
    (userType : String) (tid : Nat) (b : SendMessageBody) (t : Ticket)
    (htxt : ¬ jsTrim b.message_text = "") (ht : findTicket s tid = some t) :
    sendMessageRouteRoles = none ∧
    (sendMessage env s userId userType tid b).1 =
      MsgResp.created "Message sent successfully" s.nextMessageId ∧
    (⟨s.nextMessageId, tid, some userId, senderTypeMap userType, b.message_text,
        b.is_internal_note, false, none, s.now⟩ : ChatMessage) ∈
      (sendMessage env s userId userType tid b).2.chat_messages ∧
    (userType = "student" →
      (∀ u ∈ s.support_tickets, u.ticket_id = tid → u.user_id ≠ userId) →
      getTicketMessages s userId userType tid = ListResp.forbidden "Access denied") := by
  refine ⟨rfl, sendMessage_fst env s userId userType tid b htxt, ?_, ?_⟩
  · rw [sendMessage_snd env s userId userType tid b htxt]
    by_cases hstu : userType = "student"
    · rw [if_pos hstu]
      apply classifierFollowUp_chat_mem
      show _ ∈ s.chat_messages ++ [_]
      exact List.mem_append_right _ (by simp)
    · rw [if_neg hstu]
      show _ ∈ s.chat_messages ++ [_]
      exact List.mem_append_right _ (by simp)
  · intro hstu hnotowner
    unfold getTicketMessages
    rw [if_pos]
    refine ⟨hstu, ?_⟩
    intro hany
    rw [List.any_eq_true] at hany
    obtain ⟨u, hu, hb⟩ := hany
    rw [Bool.and_eq_true, beq_iff_eq, beq_iff_eq] at hb
    exact hnotowner u hu hb.1 hb.2

/-- Witness for C10: student 9, who does not own ticket 1, successfully
posts to it. -/
theorem C10_post_needs_no_ownership_witness :
    (sendMessage envCalm sLeak 9 "student" 1 replyBody).1 =
      MsgResp.created "Message sent successfully" 3 :=
  (C10_post_needs_no_ownership envCalm sLeak 9 "student" 1 replyBody openTicket1
    (by decide) (by decide)).2.1

end CampusCart
